import Mathlib

/-!
Verification development for the igc-admin-backend repository (Go, gin +
MongoDB). The definitions below are a shallow embedding of the request
handlers (src/handlers/user_handler.go, src/unnamed/part_004), the
persistence layer and models (src/unnamed/part_001, src/unnamed/part_002)
and the route table (src/unnamed/part_001, SetupRoutes). MongoDB documents
are modelled as Lean structures, collections as lists in insertion order,
ObjectIDs as 24-character hex strings, and times as natural numbers.
-/

namespace IGC

/-! ## Small string helpers -/

/-- Decimal digit character, used by the embedding of the Go fmt verb %03d. -/
def digitChar : Nat → Char
  | 0 => '0' | 1 => '1' | 2 => '2' | 3 => '3' | 4 => '4'
  | 5 => '5' | 6 => '6' | 7 => '7' | 8 => '8' | _ => '9'

/-- Numeric value of a decimal digit character. -/
def digitVal (c : Char) : Nat := c.toNat - 48

/-- Decimal digits of a natural number, most significant first. The fuel
argument (always at least the number itself) keeps the recursion
structural so that the kernel can evaluate it. -/
def decDigitsFuel : Nat → Nat → List Char
  | 0, n => [digitChar n]
  | fuel + 1, n =>
    if n < 10 then [digitChar n]
    else decDigitsFuel fuel (n / 10) ++ [digitChar (n % 10)]

def decDigits (n : Nat) : List Char := decDigitsFuel n n

/-- Left-pad a digit list with zero characters up to the given width. -/
def padZeros (width : Nat) (ds : List Char) : List Char :=
  List.replicate (width - ds.length) '0' ++ ds

/-- Go fmt.Sprintf with verb %03d: decimal digits, zero padded to width 3. -/
def format03d (n : Nat) : String := String.mk (padZeros 3 (decDigits n))

/-- Accumulator step for decoding a decimal digit string. -/
def digitsStep (acc : Nat) (c : Char) : Nat := 10 * acc + digitVal c

/-- Decode a decimal digit string back to a natural number. -/
def digitsVal (ds : List Char) : Nat := ds.foldl digitsStep 0

/-- Boolean test that the pattern character list occurs inside the
haystack character list (contiguously); embeds Go strings.Contains and the
case-insensitive unanchored regex filter. -/
def charsPrefixOf : List Char → List Char → Bool
  | [], _ => true
  | _ :: _, [] => false
  | c :: cs, d :: ds => c == d && charsPrefixOf cs ds

def charsInside (pat : List Char) : List Char → Bool
  | [] => charsPrefixOf pat []
  | d :: ds => charsPrefixOf pat (d :: ds) || charsInside pat ds

/-- Go strings.TrimSpace restricted to ASCII whitespace, written over the
character list so the kernel can evaluate it. -/
def isSpaceChar (c : Char) : Bool :=
  c == ' ' || c == '\t' || c == '\n' || c == '\r'

def trimSpace (s : String) : String :=
  String.mk (((s.toList.dropWhile isSpaceChar).reverse.dropWhile isSpaceChar).reverse)

/-- Lower-casing over the character list, embedding the case-insensitive
regex option of the institution filter. -/
def lowerChars (cs : List Char) : List Char := cs.map Char.toLower

/-- Go strings.Contains on the error text, as used by the handlers to pick
between 404 and other statuses. -/
def containsNotFound (e : String) : Bool :=
  charsInside "not found".toList e.toList

/-- Embedding of the parseInt helper of src/handlers/user_handler.go:
empty string or any non-digit character yields 0, otherwise the decimal
value is accumulated. -/
def parseIntGo (s : String) : Nat :=
  if s.isEmpty then 0 else parseIntLoop s.toList 0
where
  parseIntLoop : List Char → Nat → Nat
    | [], acc => acc
    | c :: cs, acc =>
      if c < '0' || c > '9' then 0
      else parseIntLoop cs (acc * 10 + (c.toNat - 48))

/-- MongoDB ObjectIDFromHex succeeds exactly on 24 hexadecimal characters. -/
def isHexChar (c : Char) : Bool :=
  (('0' ≤ c && c ≤ '9') || ('a' ≤ c && c ≤ 'f') || ('A' ≤ c && c ≤ 'F'))

def isValidObjectIdHex (s : String) : Bool :=
  s.length == 24 && s.toList.all isHexChar

/-! ## Domain entities (src/unnamed/part_001 and src/unnamed/part_002)

The User record of src/unnamed/part_001 omits a Role field, but the
handlers in src/handlers/user_handler.go read and assign user.Role and the
spec lists role among the user fields (one of admin, judge, default).
Modelled from the spec: the Role field of the User model, missing from the
models variant under src/. -/

structure User where
  idHex : String
  username : String
  password : String
  role : String
  createdAt : Nat
  updatedAt : Nat
deriving DecidableEq, Repr

inductive RegistrationStatus
  | pending
  | approved
  | rejected
deriving DecidableEq, Repr

/-- The string stored in the registrationStatus document field. -/
def statusString : RegistrationStatus → String
  | .pending => "pending"
  | .approved => "approved"
  | .rejected => "rejected"

structure TeamMember where
  fullName : String
  gender : String
  mobileNo : String
  email : String
deriving DecidableEq, Repr

/-- TeamRegistration of src/unnamed/part_002. DriveFile references are the
contained file URL strings; pointer-valued fields are Options. -/
structure TeamRegistration where
  idHex : String
  teamName : String
  leaderName : String
  leaderEmail : String
  leaderMobile : String
  leaderGender : String
  institution : String
  program : String
  country : String
  state : String
  members : List TeamMember
  mentorName : String
  mentorEmail : String
  mentorMobile : String
  mentorInstitution : String
  mentorDesignation : String
  instituteNOC : Option String
  idCardsPDF : Option String
  topicName : String
  topicDescription : String
  track : String
  presentationPPT : String
  registrationStatus : RegistrationStatus
  registrationNumber : String
  teamId : String
  submittedAt : Nat
  approvedAt : Option Nat
  rejectedAt : Option Nat
  createdAt : Nat
  updatedAt : Nat
  rejectionReason : String
  actionedBy : String
  allocatedJudgeId : String
deriving DecidableEq, Repr

/-- The two document collections, in insertion (natural) order. -/
structure DBState where
  users : List User
  teams : List TeamRegistration
deriving DecidableEq, Repr

/-! ## Authentication (src/handlers/user_handler.go) -/

/-- getJWTSecret: environment value, falling back to the hardcoded demo
secret when unset or empty. -/
def getJWTSecret (envJwtSecret : String) : String :=
  if envJwtSecret == "" then "supersecretkey" else envJwtSecret

structure JwtClaims where
  userId : String
  username : String
  role : String
  exp : Nat
deriving DecidableEq, Repr

/-- A produced token: its claims, the secret it was signed with, and
whether its signing method is in the HMAC family. -/
structure Token where
  claims : JwtClaims
  secret : String
  isHmac : Bool
deriving DecidableEq, Repr

/-- GenerateJWT: claims carry user id, username, role and a 24 hour
expiry; the token is signed with HS256 under the process secret. -/
def GenerateJWT (secret : String) (now : Nat) (u : User) : Token :=
  { claims := { userId := u.idHex, username := u.username, role := u.role,
                exp := now + 24 * 3600 }
    secret := secret
    isHmac := true }

/-- The Authorization header of a request: absent, present but not a
Bearer header, or a bearer token. -/
inductive AuthHeader
  | noHeader
  | notBearer (raw : String)
  | bearer (t : Token)
deriving DecidableEq, Repr

/-- jwt.Parse plus the token.Valid check of the middleware: HMAC family
method, matching secret and unexpired claims. -/
def tokenValid (secret : String) (now : Nat) (t : Token) : Bool :=
  t.isHmac && t.secret == secret && now < t.claims.exp

inductive MiddlewareOutcome
  | abort401 (msg : String)
  | proceed (userId username role : String)
deriving DecidableEq, Repr

/-- JWTAuthMiddleware: 401 on a missing or non-Bearer header, 401 on an
invalid or expired token, otherwise the claims are placed on the request
context and the chain proceeds. -/
def JWTAuthMiddleware (secret : String) (now : Nat) : AuthHeader → MiddlewareOutcome
  | .noHeader => .abort401 "Missing or invalid Authorization header"
  | .notBearer _ => .abort401 "Missing or invalid Authorization header"
  | .bearer t =>
    if tokenValid secret now t then
      .proceed t.claims.userId t.claims.username t.claims.role
    else .abort401 "Invalid or expired token"

/-! ## Route table (SetupRoutes, src/unnamed/part_001) -/

inductive Route
  | authLogin
  | usersCreate | usersList | usersGet | usersUpdate | usersDelete
  | teamsCreate | teamsList | teamsStats | teamsGet | teamsUpdate
  | teamsDelete | teamsAction | teamsGetByReg | teamsByTrack
  | teamsAllocate | teamsAllocated | teamsEvaluate
  | createDefaultAdmin | health | root
deriving DecidableEq, Repr

/-- Which routes sit behind JWTAuthMiddleware: SetupRoutes attaches it to
the whole users group and the whole team-registrations group, POST
included; login, create-default-admin and the health endpoints do not use
it. -/
def routeUsesJwtMiddleware : Route → Bool
  | .authLogin => false
  | .createDefaultAdmin => false
  | .health => false
  | .root => false
  | _ => true

/-! ## Persistence gateway (DatabaseService, src/unnamed/part_001) -/

namespace DatabaseService

/-- Update one element in place: MongoDB UpdateOne touches the first
matching document in natural order. -/
def updateFirst {α : Type} (p : α → Bool) (g : α → α) : List α → List α
  | [] => []
  | x :: xs => if p x then g x :: xs else x :: updateFirst p g xs

/-- Delete the first matching document, as MongoDB DeleteOne does. -/
def removeFirst {α : Type} (p : α → Bool) : List α → List α
  | [] => []
  | x :: xs => if p x then xs else x :: removeFirst p xs

def GetUserByID (id : String) (st : DBState) : Except String User :=
  if !(isValidObjectIdHex id) then .error "invalid user ID format"
  else
    match st.users.find? (fun u => u.idHex == id) with
    | some u => .ok u
    | none => .error "user not found"

def GetUserByUsername (username : String) (st : DBState) : Except String User :=
  match st.users.find? (fun u => u.username == username) with
  | some u => .ok u
  | none => .error "user not found"

def GetAllUsers (limit skip : Nat) (st : DBState) : List User :=
  (st.users.drop skip).take limit

def CountUsers (st : DBState) : Nat := st.users.length

/-- CreateUser: fresh ObjectID, both timestamps set to now, document
appended to the collection. -/
def CreateUser (u : User) (newIdHex : String) (now : Nat) (st : DBState) :
    User × DBState :=
  let created := { u with idHex := newIdHex, createdAt := now, updatedAt := now }
  (created, { st with users := st.users ++ [created] })

def GetTeamRegistrationByID (id : String) (st : DBState) :
    Except String TeamRegistration :=
  if !(isValidObjectIdHex id) then .error "invalid team registration ID format"
  else
    match st.teams.find? (fun t => t.idHex == id) with
    | some t => .ok t
    | none => .error "team registration not found"

def GetTeamRegistrationByTeamName (teamName : String) (st : DBState) :
    Except String TeamRegistration :=
  match st.teams.find? (fun t => t.teamName == teamName) with
  | some t => .ok t
  | none => .error "team registration not found"

def GetTeamRegistrationByRegistrationNumber (regNumber : String) (st : DBState) :
    Except String TeamRegistration :=
  match st.teams.find? (fun t => t.registrationNumber == regNumber) with
  | some t => .ok t
  | none => .error "team registration not found"

/-- CreateTeamRegistration: the registration number and human team id are
formatted from the current document count plus one (fmt verbs PCCOEIGC%03d
and IGC%03d), a non-atomic read-then-use sequence; timestamps are set and
the document is appended. -/
def CreateTeamRegistration (team : TeamRegistration) (newIdHex : String)
    (now : Nat) (st : DBState) : TeamRegistration × DBState :=
  let count := st.teams.length
  let created := { team with
    idHex := newIdHex
    registrationNumber := "PCCOEIGC" ++ format03d (count + 1)
    teamId := "IGC" ++ format03d (count + 1)
    createdAt := now
    updatedAt := now
    submittedAt := now }
  (created, { st with teams := st.teams ++ [created] })

/-- The partial field set passed to the $set update of
UpdateTeamRegistration. A none field is left untouched. Option-valued
document fields (approvedAt, rejectedAt, the file references) are only
ever set to a value by the handlers, never cleared. -/
structure TeamUpdateDoc where
  teamName : Option String := none
  leaderName : Option String := none
  leaderEmail : Option String := none
  leaderMobile : Option String := none
  leaderGender : Option String := none
  institution : Option String := none
  program : Option String := none
  country : Option String := none
  state : Option String := none
  members : Option (List TeamMember) := none
  mentorName : Option String := none
  mentorEmail : Option String := none
  mentorMobile : Option String := none
  mentorInstitution : Option String := none
  mentorDesignation : Option String := none
  instituteNOC : Option String := none
  idCardsPDF : Option String := none
  topicName : Option String := none
  topicDescription : Option String := none
  track : Option String := none
  presentationPPT : Option String := none
  registrationStatus : Option RegistrationStatus := none
  approvedAt : Option Nat := none
  rejectedAt : Option Nat := none
  rejectionReason : Option String := none
  actionedBy : Option String := none
  allocatedJudgeId : Option String := none
deriving DecidableEq, Repr

/-- The $set merge: supplied fields replace the stored ones and the
updatedAt timestamp is always refreshed. -/
def applySet (d : TeamUpdateDoc) (now : Nat) (t : TeamRegistration) :
    TeamRegistration :=
  { t with
    teamName := d.teamName.getD t.teamName
    leaderName := d.leaderName.getD t.leaderName
    leaderEmail := d.leaderEmail.getD t.leaderEmail
    leaderMobile := d.leaderMobile.getD t.leaderMobile
    leaderGender := d.leaderGender.getD t.leaderGender
    institution := d.institution.getD t.institution
    program := d.program.getD t.program
    country := d.country.getD t.country
    state := d.state.getD t.state
    members := d.members.getD t.members
    mentorName := d.mentorName.getD t.mentorName
    mentorEmail := d.mentorEmail.getD t.mentorEmail
    mentorMobile := d.mentorMobile.getD t.mentorMobile
    mentorInstitution := d.mentorInstitution.getD t.mentorInstitution
    mentorDesignation := d.mentorDesignation.getD t.mentorDesignation
    instituteNOC := (d.instituteNOC.map some).getD t.instituteNOC
    idCardsPDF := (d.idCardsPDF.map some).getD t.idCardsPDF
    topicName := d.topicName.getD t.topicName
    topicDescription := d.topicDescription.getD t.topicDescription
    track := d.track.getD t.track
    presentationPPT := d.presentationPPT.getD t.presentationPPT
    registrationStatus := d.registrationStatus.getD t.registrationStatus
    approvedAt := (d.approvedAt.map some).getD t.approvedAt
    rejectedAt := (d.rejectedAt.map some).getD t.rejectedAt
    rejectionReason := d.rejectionReason.getD t.rejectionReason
    actionedBy := d.actionedBy.getD t.actionedBy
    allocatedJudgeId := d.allocatedJudgeId.getD t.allocatedJudgeId
    updatedAt := now }

/-- UpdateTeamRegistration: malformed id errors; otherwise UpdateOne
merges the field set into the first matching document and a read after
write returns the full updated entity (not-found surfaces from the read). -/
def UpdateTeamRegistration (id : String) (d : TeamUpdateDoc) (now : Nat)
    (st : DBState) : Except String (TeamRegistration × DBState) :=
  if !(isValidObjectIdHex id) then .error "invalid team registration ID format"
  else
    let st2 : DBState :=
      { st with teams := updateFirst (fun t => t.idHex == id) (applySet d now) st.teams }
    match GetTeamRegistrationByID id st2 with
    | .error e => .error e
    | .ok t => .ok (t, st2)

/-- ApproveTeamRegistration: reads the registration, marks it approved in
memory (TeamRegistration.Approve sets status, approvedAt and actionedBy),
and persists exactly those fields through the generic update. -/
def ApproveTeamRegistration (id actionedBy : String) (now : Nat) (st : DBState) :
    Except String (TeamRegistration × DBState) :=
  match GetTeamRegistrationByID id st with
  | .error e => .error e
  | .ok _ =>
    UpdateTeamRegistration id
      { registrationStatus := some .approved
        approvedAt := some now
        actionedBy := some actionedBy } now st

/-- RejectTeamRegistration: as above with TeamRegistration.Reject, also
persisting the rejection reason. -/
def RejectTeamRegistration (id reason actionedBy : String) (now : Nat)
    (st : DBState) : Except String (TeamRegistration × DBState) :=
  match GetTeamRegistrationByID id st with
  | .error e => .error e
  | .ok _ =>
    UpdateTeamRegistration id
      { registrationStatus := some .rejected
        rejectedAt := some now
        rejectionReason := some reason
        actionedBy := some actionedBy } now st

def DeleteTeamRegistration (id : String) (st : DBState) : Except String DBState :=
  if !(isValidObjectIdHex id) then .error "invalid team registration ID format"
  else if st.teams.any (fun t => t.idHex == id) then
    .ok { st with teams := removeFirst (fun t => t.idHex == id) st.teams }
  else .error "team registration not found"

def CountTeamRegistrations (st : DBState) : Nat := st.teams.length

/-- Stable insertion placing strictly later submissions first; embeds the
find option sort submittedAt: -1. -/
def insertBySubmittedAtDesc (t : TeamRegistration) :
    List TeamRegistration → List TeamRegistration
  | [] => [t]
  | u :: us =>
    if u.submittedAt < t.submittedAt then t :: u :: us
    else u :: insertBySubmittedAtDesc t us

def sortBySubmittedAtDesc : List TeamRegistration → List TeamRegistration
  | [] => []
  | t :: ts => insertBySubmittedAtDesc t (sortBySubmittedAtDesc ts)

/-- GetAllTeamRegistrations: filter, sort by descending submission time,
skip, limit. -/
def GetAllTeamRegistrations (limit skip : Nat) (f : TeamRegistration → Bool)
    (st : DBState) : List TeamRegistration :=
  ((sortBySubmittedAtDesc (st.teams.filter f)).drop skip).take limit

end DatabaseService

/-! ## Request handlers (src/handlers/user_handler.go, src/unnamed/part_004)

Request bodies arrive as Option values: none stands for a body that gin
ShouldBindJSON could not decode at all; binding validation of the decoded
struct (required, min, max, oneof) is embedded explicitly per request
type. A gin required binding on a string fails exactly on the empty
string. Handler results are small sums mirroring the JSON envelopes, with
the HTTP status recoverable from the constructor. -/

namespace Handlers

/-- The JSON object returned for a user, as a key-value list: id and
username only, the password is never included. -/
def userResponseObj (u : User) : List (String × String) :=
  [("id", u.idHex), ("username", u.username)]

structure LoginRequest where
  username : String
  password : String
deriving DecidableEq, Repr

/-- Binding tags of LoginRequest: both fields required. -/
def loginBindOk (r : LoginRequest) : Bool :=
  r.username != "" && r.password != ""

inductive LoginResult
  | badRequest
  | unauthorized
  | ok (user : List (String × String)) (token : Token)
deriving DecidableEq, Repr

def LoginResult.status : LoginResult → Nat
  | .badRequest => 400
  | .unauthorized => 401
  | .ok _ _ => 200

/-- Login: bind, look the user up by username (any failure is 401
Invalid credentials), compare the password by direct equality, then issue
a token. Token signing is modelled as infallible, as HMAC signing in the
Go library only fails on a malformed key type. -/
def Login (secret : String) (now : Nat) (body : Option LoginRequest)
    (st : DBState) : LoginResult :=
  match body with
  | none => .badRequest
  | some req =>
    if !(loginBindOk req) then .badRequest
    else
      match DatabaseService.GetUserByUsername req.username st with
      | .error _ => .unauthorized
      | .ok user =>
        if user.password != req.password then .unauthorized
        else .ok (userResponseObj user) (GenerateJWT secret now user)

structure UnifiedCreateUserRequest where
  username : String
  password : String
  role : String
  name : String
  organization : String
deriving DecidableEq, Repr

/-- Binding tags of UnifiedCreateUserRequest: username required with
length 3 to 50, password required with length at least 6, role one of
admin or judge; name and organization are unvalidated. -/
def createUserBindOk (r : UnifiedCreateUserRequest) : Bool :=
  3 ≤ r.username.length && r.username.length ≤ 50 &&
  6 ≤ r.password.length &&
  (r.role == "admin" || r.role == "judge")

inductive CreateUserResult
  | badRequest
  | conflict
  | created (user : List (String × String))
deriving DecidableEq, Repr

def CreateUserResult.status : CreateUserResult → Nat
  | .badRequest => 400
  | .conflict => 409
  | .created _ => 201

/-- CreateUser: uniqueness pre-check on the username, then for the judge
role a generated judge id (JUDGE- plus a random 6 character string, passed
in as rid) doubles as the password when none was given, and the 201
response body echoes judge id, name, organization and the plaintext
password. -/
def CreateUser (body : Option UnifiedCreateUserRequest) (rid newIdHex : String)
    (now : Nat) (st : DBState) : CreateUserResult × DBState :=
  match body with
  | none => (.badRequest, st)
  | some r =>
    if !(createUserBindOk r) then (.badRequest, st)
    else
      match DatabaseService.GetUserByUsername r.username st with
      | .ok _ => (.conflict, st)
      | .error _ =>
        if r.role == "judge" && (r.name == "" || r.organization == "") then
          (.badRequest, st)
        else
          let judgeId := if r.role == "judge" then "JUDGE-" ++ rid else ""
          let password := if r.role == "judge" && r.password == "" then judgeId
                          else r.password
          let newUser : User :=
            { idHex := "", username := r.username, password := password,
              role := r.role, createdAt := 0, updatedAt := 0 }
          let (createdUser, st2) := DatabaseService.CreateUser newUser newIdHex now st
          let resp : List (String × String) :=
            if r.role == "judge" then
              [("id", createdUser.idHex), ("username", r.username),
               ("role", r.role), ("judgeId", judgeId), ("name", r.name),
               ("organization", r.organization), ("password", password)]
            else
              [("id", createdUser.idHex), ("username", r.username),
               ("role", r.role)]
          (.created resp, st2)

inductive GetUserResult
  | notFound
  | badRequest
  | ok (user : List (String × String))
deriving DecidableEq, Repr

def GetUserResult.status : GetUserResult → Nat
  | .notFound => 404
  | .badRequest => 400
  | .ok _ => 200

/-- GetUser: fetch by id, choosing 404 versus 400 by matching the error
text against the substring not found. -/
def GetUser (id : String) (st : DBState) : GetUserResult :=
  match DatabaseService.GetUserByID id st with
  | .error e => if containsNotFound e then .notFound else .badRequest
  | .ok u => .ok (userResponseObj u)

structure UsersListOk where
  users : List (List (String × String))
  page : Nat
  limit : Nat
  total : Nat
deriving DecidableEq, Repr

/-- GetAllUsers: default page 1 and limit 10, limit accepted only in 1 to
100, skip is (page - 1) * limit; users are projected without passwords and
the pagination total is the user count. -/
def GetAllUsers (pageStr limitStr : String) (st : DBState) : UsersListOk :=
  let page := if pageStr != "" && 0 < parseIntGo pageStr then parseIntGo pageStr else 1
  let limit := if limitStr != "" && 0 < parseIntGo limitStr && parseIntGo limitStr ≤ 100
               then parseIntGo limitStr else 10
  let skip := (page - 1) * limit
  { users := (DatabaseService.GetAllUsers limit skip st).map userResponseObj
    page := page
    limit := limit
    total := DatabaseService.CountUsers st }

structure CreateTeamRegistrationRequest where
  teamName : String
  leaderName : String
  leaderEmail : String
  leaderMobile : String
  leaderGender : String
  institution : String
  program : String
  country : String
  state : String
  members : List TeamMember
  mentorName : String
  mentorEmail : String
  mentorMobile : String
  mentorInstitution : String
  mentorDesignation : String
  instituteNOC : Option String
  idCardsPDF : Option String
  topicName : String
  topicDescription : String
  track : String
  presentationPPT : String
deriving DecidableEq, Repr

/-- Shallow model of the go-playground validator email tag that gin
binding runs on the email fields: a non-empty local part, a single at
sign, and a domain that is non-empty and contains a dot. The library
regex admits the same shape; the claims only need that the sample
addresses validate and that the tag rejects the empty string. -/
def emailOk (s : String) : Bool :=
  let cs := s.toList
  let localPart := cs.takeWhile (fun c => c != '@')
  match cs.dropWhile (fun c => c != '@') with
  | '@' :: domain =>
    !localPart.isEmpty && !domain.isEmpty && domain.contains '.' &&
      !(domain.contains '@')
  | _ => false

/-- Binding tags of CreateTeamRegistrationRequest enforced by gin
ShouldBindJSON before the handler body runs: required plus max lengths on
the name, place and topic fields, the email tag on the three email
fields, and required (non-zero value) on the gender, program, track and
presentation file; the members slice carries no binding tag. -/
def createTeamBindOk (r : CreateTeamRegistrationRequest) : Bool :=
  r.teamName != "" && r.teamName.length ≤ 100 &&
  r.leaderName != "" && r.leaderName.length ≤ 100 &&
  emailOk r.leaderEmail &&
  r.leaderMobile != "" &&
  r.leaderGender != "" &&
  r.institution != "" && r.institution.length ≤ 200 &&
  r.program != "" &&
  r.country != "" && r.country.length ≤ 100 &&
  r.state != "" && r.state.length ≤ 100 &&
  r.mentorName != "" && r.mentorName.length ≤ 100 &&
  emailOk r.mentorEmail &&
  r.mentorMobile != "" &&
  r.mentorInstitution != "" && r.mentorInstitution.length ≤ 200 &&
  r.mentorDesignation != "" && r.mentorDesignation.length ≤ 100 &&
  r.topicName != "" && r.topicName.length ≤ 200 &&
  r.topicDescription != "" &&
  r.track != "" &&
  r.presentationPPT != ""

/-- The handler counts members whose trimmed full name is non-empty. -/
def validMembersCount (ms : List TeamMember) : Nat :=
  ms.countP (fun m => 0 < (trimSpace m.fullName).length)

/-- NewTeamRegistration defaults plus the field assignments performed by
the create handler; identifiers and timestamps are filled in later by the
persistence call. -/
def newTeamFromRequest (r : CreateTeamRegistrationRequest) : TeamRegistration :=
  { idHex := "", teamName := r.teamName, leaderName := r.leaderName,
    leaderEmail := r.leaderEmail, leaderMobile := r.leaderMobile,
    leaderGender := r.leaderGender, institution := r.institution,
    program := r.program, country := r.country, state := r.state,
    members := r.members, mentorName := r.mentorName,
    mentorEmail := r.mentorEmail, mentorMobile := r.mentorMobile,
    mentorInstitution := r.mentorInstitution,
    mentorDesignation := r.mentorDesignation, instituteNOC := r.instituteNOC,
    idCardsPDF := r.idCardsPDF, topicName := r.topicName,
    topicDescription := r.topicDescription, track := r.track,
    presentationPPT := r.presentationPPT,
    registrationStatus := .pending, registrationNumber := "", teamId := "",
    submittedAt := 0, approvedAt := none, rejectedAt := none,
    createdAt := 0, updatedAt := 0, rejectionReason := "", actionedBy := "",
    allocatedJudgeId := "" }

inductive CreateTeamResult
  | badRequest (msg : String)
  | conflict
  | created (team : TeamRegistration)
deriving DecidableEq, Repr

def CreateTeamResult.status : CreateTeamResult → Nat
  | .badRequest _ => 400
  | .conflict => 409
  | .created _ => 201

/-- CreateTeamRegistration handler: ShouldBindJSON (decode plus binding
validation → 400), count non-empty members and require 1 to 4, pre-check
team name uniqueness (409), then persist. -/
def CreateTeamRegistration (body : Option CreateTeamRegistrationRequest)
    (newIdHex : String) (now : Nat) (st : DBState) :
    CreateTeamResult × DBState :=
  match body with
  | none => (.badRequest "Invalid request data", st)
  | some req =>
    if !(createTeamBindOk req) then (.badRequest "Invalid request data", st)
    else
    let validMembers := validMembersCount req.members
    if validMembers < 1 || validMembers > 4 then
      (.badRequest "Team must have between 1-4 members (excluding leader)", st)
    else
      match DatabaseService.GetTeamRegistrationByTeamName req.teamName st with
      | .ok _ => (.conflict, st)
      | .error _ =>
        let (created, st2) :=
          DatabaseService.CreateTeamRegistration (newTeamFromRequest req) newIdHex now st
        (.created created, st2)

inductive GetTeamResult
  | notFound
  | badRequest
  | ok (team : TeamRegistration)
deriving DecidableEq, Repr

def GetTeamResult.status : GetTeamResult → Nat
  | .notFound => 404
  | .badRequest => 400
  | .ok _ => 200

/-- GetTeamRegistration (by opaque id): 404 on the not-found error text,
400 on a malformed id. -/
def GetTeamRegistration (id : String) (st : DBState) : GetTeamResult :=
  match DatabaseService.GetTeamRegistrationByID id st with
  | .error e => if containsNotFound e then .notFound else .badRequest
  | .ok t => .ok t

/-- GetTeamRegistrationByRegNumber: any lookup failure is a 404. -/
def GetTeamRegistrationByRegNumber (regNumber : String) (st : DBState) :
    GetTeamResult :=
  match DatabaseService.GetTeamRegistrationByRegistrationNumber regNumber st with
  | .error _ => .notFound
  | .ok t => .ok t

structure TeamsListQuery where
  page : String
  limit : String
  status : String
  track : String
  institution : String
deriving DecidableEq, Repr

/-- The MongoDB filter document assembled by the list handler: equality on
registrationStatus and track, case-insensitive unanchored regex (modelled
as case-insensitive substring containment) on institution; an empty query
value contributes no condition. -/
def listFilterPred (q : TeamsListQuery) (t : TeamRegistration) : Bool :=
  (q.status == "" || statusString t.registrationStatus == q.status) &&
  (q.track == "" || t.track == q.track) &&
  (q.institution == "" ||
    charsInside (lowerChars q.institution.toList) (lowerChars t.institution.toList))

structure TeamsListOk where
  teams : List TeamRegistration
  page : Nat
  limit : Nat
  total : Nat
deriving DecidableEq, Repr

/-- GetAllTeamRegistrations handler: pagination defaults as for users; the
find call receives the filter, but the pagination total comes from the
unfiltered CountTeamRegistrations call. -/
def GetAllTeamRegistrations (q : TeamsListQuery) (st : DBState) : TeamsListOk :=
  let page := if q.page != "" && 0 < parseIntGo q.page then parseIntGo q.page else 1
  let limit := if q.limit != "" && 0 < parseIntGo q.limit && parseIntGo q.limit ≤ 100
               then parseIntGo q.limit else 10
  let skip := (page - 1) * limit
  { teams := DatabaseService.GetAllTeamRegistrations limit skip (listFilterPred q) st
    page := page
    limit := limit
    total := DatabaseService.CountTeamRegistrations st }

structure UpdateTeamRegistrationRequest where
  teamName : String := ""
  leaderName : String := ""
  leaderEmail : String := ""
  leaderMobile : String := ""
  leaderGender : Option String := none
  institution : String := ""
  program : Option String := none
  country : String := ""
  state : String := ""
  members : Option (List TeamMember) := none
  mentorName : String := ""
  mentorEmail : String := ""
  mentorMobile : String := ""
  mentorInstitution : String := ""
  mentorDesignation : String := ""
  instituteNOC : Option String := none
  idCardsPDF : Option String := none
  topicName : String := ""
  topicDescription : String := ""
  track : Option String := none
  presentationPPT : Option String := none
deriving DecidableEq, Repr

/-- The field-by-field updateData construction of the update handler:
non-empty strings and non-nil pointers are copied in; the registration
status, identifiers, audit fields and timestamps are never touched. -/
def buildTeamUpdateDoc (r : UpdateTeamRegistrationRequest) :
    DatabaseService.TeamUpdateDoc :=
  { teamName := if r.teamName != "" then some r.teamName else none
    leaderName := if r.leaderName != "" then some r.leaderName else none
    leaderEmail := if r.leaderEmail != "" then some r.leaderEmail else none
    leaderMobile := if r.leaderMobile != "" then some r.leaderMobile else none
    leaderGender := r.leaderGender
    institution := if r.institution != "" then some r.institution else none
    program := r.program
    country := if r.country != "" then some r.country else none
    state := if r.state != "" then some r.state else none
    members := r.members
    mentorName := if r.mentorName != "" then some r.mentorName else none
    mentorEmail := if r.mentorEmail != "" then some r.mentorEmail else none
    mentorMobile := if r.mentorMobile != "" then some r.mentorMobile else none
    mentorInstitution :=
      if r.mentorInstitution != "" then some r.mentorInstitution else none
    mentorDesignation :=
      if r.mentorDesignation != "" then some r.mentorDesignation else none
    instituteNOC := r.instituteNOC
    idCardsPDF := r.idCardsPDF
    topicName := if r.topicName != "" then some r.topicName else none
    topicDescription :=
      if r.topicDescription != "" then some r.topicDescription else none
    track := r.track
    presentationPPT := r.presentationPPT }

/-- The len(updateData) == 0 check of the update handler. -/
def teamUpdateDocIsEmpty (d : DatabaseService.TeamUpdateDoc) : Bool :=
  d.teamName.isNone && d.leaderName.isNone && d.leaderEmail.isNone &&
  d.leaderMobile.isNone && d.leaderGender.isNone && d.institution.isNone &&
  d.program.isNone && d.country.isNone && d.state.isNone &&
  d.members.isNone && d.mentorName.isNone && d.mentorEmail.isNone &&
  d.mentorMobile.isNone && d.mentorInstitution.isNone &&
  d.mentorDesignation.isNone && d.instituteNOC.isNone &&
  d.idCardsPDF.isNone && d.topicName.isNone && d.topicDescription.isNone &&
  d.track.isNone && d.presentationPPT.isNone &&
  d.registrationStatus.isNone && d.approvedAt.isNone && d.rejectedAt.isNone &&
  d.rejectionReason.isNone && d.actionedBy.isNone && d.allocatedJudgeId.isNone

inductive UpdateTeamResult
  | badRequest (msg : String)
  | notFound
  | serverError
  | ok (team : TeamRegistration)
deriving DecidableEq, Repr

def UpdateTeamResult.status : UpdateTeamResult → Nat
  | .badRequest _ => 400
  | .notFound => 404
  | .serverError => 500
  | .ok _ => 200

/-- UpdateTeamRegistration handler: existence check, then the partial
field merge. -/
def UpdateTeamRegistration (id : String)
    (body : Option UpdateTeamRegistrationRequest) (now : Nat) (st : DBState) :
    UpdateTeamResult × DBState :=
  match body with
  | none => (.badRequest "Invalid request data", st)
  | some req =>
    match DatabaseService.GetTeamRegistrationByID id st with
    | .error e =>
      (if containsNotFound e then .notFound
       else .badRequest "Invalid team registration ID", st)
    | .ok _ =>
      let d := buildTeamUpdateDoc req
      if teamUpdateDocIsEmpty d then (.badRequest "No valid fields to update", st)
      else
        match DatabaseService.UpdateTeamRegistration id d now st with
        | .error _ => (.serverError, st)
        | .ok (t, st2) => (.ok t, st2)

structure ApproveRejectRequest where
  action : String
  reason : String
  actionedBy : String
deriving DecidableEq, Repr

/-- Binding tags of ApproveRejectRequest: action required and one of
approve or reject, actionedBy required, reason optional. -/
def approveRejectBindOk (r : ApproveRejectRequest) : Bool :=
  (r.action == "approve" || r.action == "reject") && r.actionedBy != ""

inductive ActionResult
  | badRequest (msg : String)
  | notFound
  | serverError
  | ok (team : TeamRegistration)
deriving DecidableEq, Repr

def ActionResult.status : ActionResult → Nat
  | .badRequest _ => 400
  | .notFound => 404
  | .serverError => 500
  | .ok _ => 200

/-- ApproveOrRejectTeamRegistration: approve delegates directly; reject
first requires a non-empty reason (400 before any persistence call);
errors map to 404 on the not-found text, otherwise 500. No check of the
current status is made on either path. -/
def ApproveOrRejectTeamRegistration (id : String)
    (body : Option ApproveRejectRequest) (now : Nat) (st : DBState) :
    ActionResult × DBState :=
  match body with
  | none => (.badRequest "Invalid request data", st)
  | some req =>
    if !(approveRejectBindOk req) then (.badRequest "Invalid request data", st)
    else if req.action == "approve" then
      match DatabaseService.ApproveTeamRegistration id req.actionedBy now st with
      | .error e => (if containsNotFound e then .notFound else .serverError, st)
      | .ok (t, st2) => (.ok t, st2)
    else
      if req.reason == "" then (.badRequest "Rejection reason is required", st)
      else
        match DatabaseService.RejectTeamRegistration id req.reason req.actionedBy now st with
        | .error e => (if containsNotFound e then .notFound else .serverError, st)
        | .ok (t, st2) => (.ok t, st2)

inductive DeleteTeamResult
  | notFound
  | badRequest
  | okDeleted
deriving DecidableEq, Repr

def DeleteTeamResult.status : DeleteTeamResult → Nat
  | .notFound => 404
  | .badRequest => 400
  | .okDeleted => 200

def DeleteTeamRegistration (id : String) (st : DBState) :
    DeleteTeamResult × DBState :=
  match DatabaseService.DeleteTeamRegistration id st with
  | .error e => (if containsNotFound e then .notFound else .badRequest, st)
  | .ok st2 => (.okDeleted, st2)

structure AllocateRequest where
  judgeId : String
deriving DecidableEq, Repr

inductive AllocateResult
  | badRequest
  | forbidden
  | serverError
  | ok (team : TeamRegistration)
deriving DecidableEq, Repr

def AllocateResult.status : AllocateResult → Nat
  | .badRequest => 400
  | .forbidden => 403
  | .serverError => 500
  | .ok _ => 200

/-- AllocateTeamToJudge: the body is bound BEFORE the role check (a
malformed or empty judgeId yields 400 whatever the role); only the exact
role string admin may allocate, every other role gets 403 with no state
change; the update stores the judge id string on the registration. -/
def AllocateTeamToJudge (id : String) (body : Option AllocateRequest)
    (role : String) (now : Nat) (st : DBState) : AllocateResult × DBState :=
  match body with
  | none => (.badRequest, st)
  | some req =>
    if req.judgeId == "" then (.badRequest, st)
    else if role != "admin" then (.forbidden, st)
    else
      match DatabaseService.UpdateTeamRegistration id
              { allocatedJudgeId := some req.judgeId } now st with
      | .error _ => (.serverError, st)
      | .ok (t, st2) => (.ok t, st2)

structure EvaluateRequest where
  decision : String
  reason : String
deriving DecidableEq, Repr

/-- Binding tags of the evaluate body: decision required and one of
approve or reject, reason optional. -/
def evaluateBindOk (r : EvaluateRequest) : Bool :=
  r.decision == "approve" || r.decision == "reject"

inductive EvaluateResult
  | badRequest
  | forbidden
  | serverError
  | ok (team : TeamRegistration)
deriving DecidableEq, Repr

def EvaluateResult.status : EvaluateResult → Nat
  | .badRequest => 400
  | .forbidden => 403
  | .serverError => 500
  | .ok _ => 200

/-- JudgeEvaluateTeam: the role check comes FIRST (only the exact role
string judge proceeds, 403 otherwise), then the body is bound; the update
sets approved or rejected fields unconditionally on the registration. -/
def JudgeEvaluateTeam (id role userId : String) (body : Option EvaluateRequest)
    (now : Nat) (st : DBState) : EvaluateResult × DBState :=
  if role != "judge" then (.forbidden, st)
  else
    match body with
    | none => (.badRequest, st)
    | some req =>
      if !(evaluateBindOk req) then (.badRequest, st)
      else
        let d : DatabaseService.TeamUpdateDoc :=
          if req.decision == "approve" then
            { registrationStatus := some .approved, approvedAt := some now,
              actionedBy := some userId }
          else
            { registrationStatus := some .rejected, rejectedAt := some now,
              rejectionReason := some req.reason, actionedBy := some userId }
        match DatabaseService.UpdateTeamRegistration id d now st with
        | .error _ => (.serverError, st)
        | .ok (t, st2) => (.ok t, st2)

end Handlers

/-! ## The JWT-guarded create route (C1) -/

inductive TeamsCreateRouteResult
  | unauthorized (msg : String)
  | handled (r : Handlers.CreateTeamResult)
deriving DecidableEq, Repr

def TeamsCreateRouteResult.status : TeamsCreateRouteResult → Nat
  | .unauthorized _ => 401
  | .handled r => r.status

/-- The middleware chain of POST team-registrations as wired by
SetupRoutes: JWTAuthMiddleware runs before the create handler because the
whole team-registrations group uses it. -/
def serveTeamsCreate (secret : String) (now : Nat) (auth : AuthHeader)
    (body : Option Handlers.CreateTeamRegistrationRequest) (newIdHex : String)
    (st : DBState) : TeamsCreateRouteResult × DBState :=
  match JWTAuthMiddleware secret now auth with
  | .abort401 msg => (.unauthorized msg, st)
  | .proceed _ _ _ =>
    let (r, st2) := Handlers.CreateTeamRegistration body newIdHex now st
    (.handled r, st2)

/-! ## Handler operations touching the team collection (C2) -/

inductive HandlerOp
  | createTeam (body : Option Handlers.CreateTeamRegistrationRequest)
      (newIdHex : String) (now : Nat)
  | updateTeam (id : String) (body : Option Handlers.UpdateTeamRegistrationRequest)
      (now : Nat)
  | actionTeam (id : String) (body : Option Handlers.ApproveRejectRequest)
      (now : Nat)
  | allocateTeam (id : String) (body : Option Handlers.AllocateRequest)
      (role : String) (now : Nat)
  | evaluateTeam (id role userId : String) (body : Option Handlers.EvaluateRequest)
      (now : Nat)
  | deleteTeam (id : String)

/-- State effect of each handler that can write the team collection. -/
def applyHandlerOp : HandlerOp → DBState → DBState
  | .createTeam body i n, st => (Handlers.CreateTeamRegistration body i n st).2
  | .updateTeam id body n, st => (Handlers.UpdateTeamRegistration id body n st).2
  | .actionTeam id body n, st => (Handlers.ApproveOrRejectTeamRegistration id body n st).2
  | .allocateTeam id body role n, st => (Handlers.AllocateTeamToJudge id body role n st).2
  | .evaluateTeam id role u body n, st => (Handlers.JudgeEvaluateTeam id role u body n st).2
  | .deleteTeam id, st => (Handlers.DeleteTeamRegistration id st).2

/-! ## General lemmas about the embedding -/

theorem digitVal_digitChar (d : Nat) (h : d < 10) : digitVal (digitChar d) = d := by
  interval_cases d <;> rfl

theorem decDigitsFuel_foldl : ∀ (fuel n : Nat), n ≤ fuel → ∀ acc : Nat,
    (decDigitsFuel fuel n).foldl digitsStep acc =
      acc * 10 ^ (decDigitsFuel fuel n).length + n := by
  intro fuel
  induction fuel with
  | zero =>
    intro n hn acc
    have hn0 : n = 0 := Nat.le_zero.mp hn
    subst hn0
    simp [decDigitsFuel, digitsStep, digitVal, digitChar]
    omega
  | succ fuel ih =>
    intro n hn acc
    by_cases h : n < 10
    · rw [decDigitsFuel, if_pos h]
      simp only [List.foldl_cons, List.foldl_nil, digitsStep,
        digitVal_digitChar n h, List.length_cons, List.length_nil]
      omega
    · have hd : n / 10 < n := Nat.div_lt_self (by omega) (by omega)
      have hfuel : n / 10 ≤ fuel := by omega
      rw [decDigitsFuel, if_neg h]
      rw [List.foldl_append, ih (n / 10) hfuel acc]
      simp only [List.foldl_cons, List.foldl_nil, digitsStep,
        digitVal_digitChar (n % 10) (Nat.mod_lt n (by omega)),
        List.length_append, List.length_cons, List.length_nil]
      rw [pow_succ, ← Nat.mul_assoc]
      have hn2 := Nat.div_add_mod n 10
      generalize acc * 10 ^ (decDigitsFuel fuel (n / 10)).length = q
      omega

theorem digitsVal_decDigits (n : Nat) : digitsVal (decDigits n) = n := by
  have h := decDigitsFuel_foldl n n (Nat.le_refl n) 0
  simpa [digitsVal, decDigits] using h

theorem foldl_digitsStep_replicate_zero (k : Nat) :
    (List.replicate k '0').foldl digitsStep 0 = 0 := by
  induction k with
  | zero => rfl
  | succ k ih => simpa [List.replicate_succ, digitsStep, digitVal] using ih

theorem digitsVal_padZeros (w : Nat) (ds : List Char) :
    digitsVal (padZeros w ds) = digitsVal ds := by
  unfold digitsVal padZeros
  rw [List.foldl_append, foldl_digitsStep_replicate_zero]

/-- The zero-padded decimal rendering is injective, so distinct counts can
never yield the same registration number token. -/
theorem format03d_inj {a b : Nat} (h : format03d a = format03d b) : a = b := by
  have h2 : padZeros 3 (decDigits a) = padZeros 3 (decDigits b) :=
    congrArg String.data h
  have h3 := congrArg digitsVal h2
  rw [digitsVal_padZeros, digitsVal_padZeros, digitsVal_decDigits,
    digitsVal_decDigits] at h3
  exact h3

theorem stringAppendCancelLeft (p s t : String) (h : p ++ s = p ++ t) : s = t := by
  cases p with | mk pd =>
  cases s with | mk sd =>
  cases t with | mk td =>
  have h2 : pd ++ sd = pd ++ td := congrArg String.data h
  exact congrArg String.mk (List.append_cancel_left h2)

theorem find?_updateFirst {α : Type} (p : α → Bool) (g : α → α)
    (hg : ∀ a, p a = true → p (g a) = true) (l : List α) :
    (DatabaseService.updateFirst p g l).find? p = (l.find? p).map g := by
  induction l with
  | nil => rfl
  | cons x xs ih =>
    rw [DatabaseService.updateFirst]
    by_cases hx : p x = true
    · rw [if_pos hx, List.find?_cons_of_pos _ (hg x hx), List.find?_cons_of_pos _ hx]
      rfl
    · rw [if_neg hx, List.find?_cons_of_neg _ hx, List.find?_cons_of_neg _ hx]
      exact ih

theorem mem_updateFirst {α : Type} {p : α → Bool} {g : α → α} {l : List α} {x : α}
    (h : x ∈ DatabaseService.updateFirst p g l) :
    x ∈ l ∨ ∃ y, y ∈ l ∧ x = g y := by
  induction l with
  | nil => simp [DatabaseService.updateFirst] at h
  | cons z zs ih =>
    rw [DatabaseService.updateFirst] at h
    by_cases hz : p z = true
    · rw [if_pos hz] at h
      rcases List.mem_cons.mp h with h1 | h1
      · exact Or.inr ⟨z, List.mem_cons_self z zs, h1⟩
      · exact Or.inl (List.mem_cons_of_mem _ h1)
    · rw [if_neg hz] at h
      rcases List.mem_cons.mp h with h1 | h1
      · exact Or.inl (h1 ▸ List.mem_cons_self z zs)
      · rcases ih h1 with h2 | ⟨y, hy, hxy⟩
        · exact Or.inl (List.mem_cons_of_mem _ h2)
        · exact Or.inr ⟨y, List.mem_cons_of_mem _ hy, hxy⟩

theorem mem_removeFirst {α : Type} {p : α → Bool} {l : List α} {x : α}
    (h : x ∈ DatabaseService.removeFirst p l) : x ∈ l := by
  induction l with
  | nil => simp [DatabaseService.removeFirst] at h
  | cons z zs ih =>
    rw [DatabaseService.removeFirst] at h
    by_cases hz : p z = true
    · rw [if_pos hz] at h
      exact List.mem_cons_of_mem _ h
    · rw [if_neg hz] at h
      rcases List.mem_cons.mp h with h1 | h1
      · exact h1 ▸ List.mem_cons_self z zs
      · exact List.mem_cons_of_mem _ (ih h1)

theorem find?_append_of_none {α : Type} {p : α → Bool} {l1 : List α} (l2 : List α)
    (h : ∀ a ∈ l1, p a = false) : (l1 ++ l2).find? p = l2.find? p := by
  induction l1 with
  | nil => rfl
  | cons x xs ih =>
    rw [List.cons_append, List.find?_cons_of_neg]
    · exact ih (fun a ha => h a (List.mem_cons_of_mem _ ha))
    · simp [h x (List.mem_cons_self x xs)]

theorem insertBySubmittedAtDesc_perm (t : TeamRegistration)
    (l : List TeamRegistration) :
    List.Perm (DatabaseService.insertBySubmittedAtDesc t l) (t :: l) := by
  induction l with
  | nil => exact List.Perm.refl _
  | cons u us ih =>
    rw [DatabaseService.insertBySubmittedAtDesc]
    by_cases h : u.submittedAt < t.submittedAt
    · rw [if_pos h]
    · rw [if_neg h]
      exact (ih.cons u).trans (List.Perm.swap t u us)

theorem insertBySubmittedAtDesc_pairwise (t : TeamRegistration)
    {l : List TeamRegistration}
    (h : l.Pairwise fun a b => b.submittedAt ≤ a.submittedAt) :
    (DatabaseService.insertBySubmittedAtDesc t l).Pairwise
      fun a b => b.submittedAt ≤ a.submittedAt := by
  induction l with
  | nil => simp [DatabaseService.insertBySubmittedAtDesc]
  | cons u us ih =>
    rw [List.pairwise_cons] at h
    obtain ⟨hu, hus⟩ := h
    rw [DatabaseService.insertBySubmittedAtDesc]
    by_cases hc : u.submittedAt < t.submittedAt
    · rw [if_pos hc]
      refine List.Pairwise.cons ?_ (List.Pairwise.cons hu hus)
      intro x hx
      rcases List.mem_cons.mp hx with rfl | hx2
      · exact Nat.le_of_lt hc
      · exact Nat.le_trans (hu x hx2) (Nat.le_of_lt hc)
    · rw [if_neg hc]
      refine List.Pairwise.cons ?_ (ih hus)
      intro x hx
      have hx2 := (insertBySubmittedAtDesc_perm t us).mem_iff.mp hx
      rcases List.mem_cons.mp hx2 with rfl | hx3
      · exact Nat.le_of_not_lt hc
      · exact hu x hx3

theorem sortBySubmittedAtDesc_perm (l : List TeamRegistration) :
    List.Perm (DatabaseService.sortBySubmittedAtDesc l) l := by
  induction l with
  | nil => exact List.Perm.refl _
  | cons t ts ih =>
    rw [DatabaseService.sortBySubmittedAtDesc]
    exact (insertBySubmittedAtDesc_perm t _).trans (ih.cons t)

theorem sortBySubmittedAtDesc_pairwise (l : List TeamRegistration) :
    (DatabaseService.sortBySubmittedAtDesc l).Pairwise
      fun a b => b.submittedAt ≤ a.submittedAt := by
  induction l with
  | nil => simp [DatabaseService.sortBySubmittedAtDesc]
  | cons t ts ih =>
    rw [DatabaseService.sortBySubmittedAtDesc]
    exact insertBySubmittedAtDesc_pairwise t ih

theorem applySet_idHex (d : DatabaseService.TeamUpdateDoc) (now : Nat)
    (t : TeamRegistration) : (DatabaseService.applySet d now t).idHex = t.idHex := rfl

theorem applySet_status (d : DatabaseService.TeamUpdateDoc) (now : Nat)
    (t : TeamRegistration) :
    (DatabaseService.applySet d now t).registrationStatus =
      d.registrationStatus.getD t.registrationStatus := rfl

/-- A successful read by id decomposes into the hex check and a find on
the collection. -/
theorem getTeamById_ok_iff {id : String} {st : DBState} {t : TeamRegistration} :
    DatabaseService.GetTeamRegistrationByID id st = .ok t ↔
      isValidObjectIdHex id = true ∧
        st.teams.find? (fun x => x.idHex == id) = some t := by
  constructor
  · intro h
    unfold DatabaseService.GetTeamRegistrationByID at h
    cases hv : isValidObjectIdHex id with
    | false => rw [hv] at h; simp at h
    | true =>
      rw [hv] at h
      simp only [Bool.not_true, Bool.false_eq_true, if_false] at h
      cases hf : st.teams.find? (fun x => x.idHex == id) with
      | none => rw [hf] at h; simp at h
      | some u => rw [hf] at h; simp at h; exact ⟨rfl, by rw [h]⟩
  · intro ⟨hv, hf⟩
    unfold DatabaseService.GetTeamRegistrationByID
    rw [hv]
    simp only [Bool.not_true, Bool.false_eq_true, if_false]
    rw [hf]

/-- The state produced by an UpdateOne plus $set on the team collection. -/
@[reducible] def stAfterUpdate (id : String) (d : DatabaseService.TeamUpdateDoc) (now : Nat)
    (st : DBState) : DBState :=
  { st with teams := (DatabaseService.updateFirst (fun x => x.idHex == id)
      (DatabaseService.applySet d now) st.teams) }

/-- Reading back after an UpdateOne on the same id returns the merged
document. -/
theorem getById_after_update {id : String} {d : DatabaseService.TeamUpdateDoc}
    {now : Nat} {st : DBState} {t : TeamRegistration}
    (h : DatabaseService.GetTeamRegistrationByID id st = .ok t) :
    DatabaseService.GetTeamRegistrationByID id (stAfterUpdate id d now st) =
      .ok (DatabaseService.applySet d now t) := by
  obtain ⟨hv, hf⟩ := getTeamById_ok_iff.mp h
  apply getTeamById_ok_iff.mpr
  refine ⟨hv, ?_⟩
  rw [find?_updateFirst (fun x => x.idHex == id) (DatabaseService.applySet d now)
    (fun a ha => by rw [← ha]; rfl) st.teams]
  rw [hf]
  rfl

/-- Exact outcome of the persistence-level update when the target is
present. -/
theorem updateTeamRegistration_ok {id : String} {d : DatabaseService.TeamUpdateDoc}
    {now : Nat} {st : DBState} {t : TeamRegistration}
    (h : DatabaseService.GetTeamRegistrationByID id st = .ok t) :
    DatabaseService.UpdateTeamRegistration id d now st =
      .ok (DatabaseService.applySet d now t, stAfterUpdate id d now st) := by
  obtain ⟨hv, _⟩ := getTeamById_ok_iff.mp h
  have hg := @getById_after_update id d now st t h
  unfold stAfterUpdate at hg
  unfold DatabaseService.UpdateTeamRegistration stAfterUpdate
  rw [hv]
  simp only [Bool.not_true, Bool.false_eq_true, if_false]
  rw [hg]

/-- Any successful persistence-level update leaves exactly the
stAfterUpdate state. -/
theorem updateTeamRegistration_ok_state {id : String}
    {d : DatabaseService.TeamUpdateDoc} {now : Nat} {st : DBState}
    {r : TeamRegistration} {st2 : DBState}
    (h : DatabaseService.UpdateTeamRegistration id d now st = .ok (r, st2)) :
    st2 = stAfterUpdate id d now st := by
  unfold DatabaseService.UpdateTeamRegistration at h
  cases hv : isValidObjectIdHex id with
  | false => rw [hv] at h; simp at h
  | true =>
    rw [hv] at h
    simp only [Bool.not_true, Bool.false_eq_true, if_false] at h
    cases hg : DatabaseService.GetTeamRegistrationByID id
        (stAfterUpdate id d now st) with
    | error e => rw [hg] at h; simp at h
    | ok u =>
      rw [hg] at h
      simp only [Except.ok.injEq, Prod.mk.injEq] at h
      exact h.2.symm

theorem approveTeamRegistration_ok_state {id a : String} {now : Nat}
    {st : DBState} {r : TeamRegistration} {st2 : DBState}
    (h : DatabaseService.ApproveTeamRegistration id a now st = .ok (r, st2)) :
    st2 = stAfterUpdate id
      { registrationStatus := some RegistrationStatus.approved,
        approvedAt := some now, actionedBy := some a } now st := by
  unfold DatabaseService.ApproveTeamRegistration at h
  cases hg : DatabaseService.GetTeamRegistrationByID id st with
  | error e => rw [hg] at h; simp at h
  | ok t => rw [hg] at h; exact updateTeamRegistration_ok_state h

theorem rejectTeamRegistration_ok_state {id reason a : String} {now : Nat}
    {st : DBState} {r : TeamRegistration} {st2 : DBState}
    (h : DatabaseService.RejectTeamRegistration id reason a now st = .ok (r, st2)) :
    st2 = stAfterUpdate id
      { registrationStatus := some RegistrationStatus.rejected,
        rejectedAt := some now, rejectionReason := some reason,
        actionedBy := some a } now st := by
  unfold DatabaseService.RejectTeamRegistration at h
  cases hg : DatabaseService.GetTeamRegistrationByID id st with
  | error e => rw [hg] at h; simp at h
  | ok t => rw [hg] at h; exact updateTeamRegistration_ok_state h

theorem deleteTeamRegistration_ok_state {id : String} {st st2 : DBState}
    (h : DatabaseService.DeleteTeamRegistration id st = .ok st2) :
    st2.teams = DatabaseService.removeFirst (fun x => x.idHex == id) st.teams := by
  unfold DatabaseService.DeleteTeamRegistration at h
  cases hv : isValidObjectIdHex id with
  | false => rw [hv] at h; simp at h
  | true =>
    rw [hv] at h
    simp only [Bool.not_true, Bool.false_eq_true, if_false] at h
    by_cases ha : st.teams.any (fun t => t.idHex == id) = true
    · rw [if_pos ha] at h
      simp only [Except.ok.injEq] at h
      rw [← h]
    · rw [if_neg ha] at h
      simp at h

/-- The create persistence call appends the created document, whose
opaque id is the fresh ObjectID. -/
theorem createTeamRegistration_state2 (team : TeamRegistration) (i : String)
    (now : Nat) (st : DBState) :
    (DatabaseService.CreateTeamRegistration team i now st).2.teams =
      st.teams ++ [(DatabaseService.CreateTeamRegistration team i now st).1] ∧
    (DatabaseService.CreateTeamRegistration team i now st).1.idHex = i := by
  unfold DatabaseService.CreateTeamRegistration
  exact ⟨rfl, rfl⟩

/-- A registration that is pending after an update was pending before it,
provided the update document does not itself write the pending status. -/
theorem pending_from_stAfterUpdate {id : String}
    {d : DatabaseService.TeamUpdateDoc} {now : Nat} {st : DBState}
    {t2 : TeamRegistration}
    (h : t2 ∈ (stAfterUpdate id d now st).teams)
    (hd : d.registrationStatus ≠ some RegistrationStatus.pending)
    (hp : t2.registrationStatus = RegistrationStatus.pending) :
    ∃ t1 ∈ st.teams, t1.idHex = t2.idHex ∧
      t1.registrationStatus = RegistrationStatus.pending := by
  rcases mem_updateFirst h with h1 | ⟨y, hy, rfl⟩
  · exact ⟨t2, h1, rfl, hp⟩
  · rw [applySet_status] at hp
    cases hds : d.registrationStatus with
    | none =>
      rw [hds] at hp
      exact ⟨y, hy, (applySet_idHex d now y).symm, hp⟩
    | some s =>
      rw [hds] at hp
      simp only [Option.getD_some] at hp
      rw [hp] at hds
      exact absurd hds hd

/-! ## Concrete fixtures used by witnesses and counterexamples -/

def hexA : String := "507f1f77bcf86cd799439011"

def hexB : String := "507f1f77bcf86cd799439012"

def hexC : String := "507f1f77bcf86cd799439013"

def sampleMember : TeamMember :=
  { fullName := "Asha Patil", gender := "female",
    mobileNo := "+911234567890", email := "asha@example.com" }

def sampleCreateReq : Handlers.CreateTeamRegistrationRequest :=
  { teamName := "Team Alpha", leaderName := "Ravi Kumar",
    leaderEmail := "ravi@example.com", leaderMobile := "+911111111111",
    leaderGender := "male", institution := "PCCOE Pune",
    program := "B.Tech - Computer Engineering", country := "India",
    state := "Maharashtra", members := [sampleMember],
    mentorName := "Dr. Mentor", mentorEmail := "mentor@example.com",
    mentorMobile := "+912222222222", mentorInstitution := "PCCOE Pune",
    mentorDesignation := "Professor", instituteNOC := none, idCardsPDF := none,
    topicName := "Flood prediction", topicDescription := "Prediction models",
    track := "Smart Agriculture", presentationPPT := "https://files.example.com/ppt" }

def samplePendingTeam : TeamRegistration :=
  { Handlers.newTeamFromRequest sampleCreateReq with
    idHex := hexA, registrationNumber := "PCCOEIGC001", teamId := "IGC001",
    submittedAt := 1, createdAt := 1, updatedAt := 1 }

def stPending : DBState := { users := [], teams := [samplePendingTeam] }

/-! ## C6 -/

/-- C6: approving a registration that is found pending succeeds, sets the
status to approved, an approval timestamp and the actor, and a second
approve by the same actor also succeeds without error and leaves the
registration approved. -/
theorem c6_theorem (id actor : String) (now now2 : Nat) (st : DBState)
    (t : TeamRegistration)
    (h : DatabaseService.GetTeamRegistrationByID id st = .ok t)
    (_hp : t.registrationStatus = RegistrationStatus.pending) :
    ∃ t1 st1,
      DatabaseService.ApproveTeamRegistration id actor now st = .ok (t1, st1) ∧
      t1.registrationStatus = .approved ∧ t1.approvedAt = some now ∧
      t1.actionedBy = actor ∧
      ∃ t2 st2,
        DatabaseService.ApproveTeamRegistration id actor now2 st1 = .ok (t2, st2) ∧
        t2.registrationStatus = .approved := by
  have happ :=
    @updateTeamRegistration_ok id
      { registrationStatus := some RegistrationStatus.approved,
        approvedAt := some now, actionedBy := some actor } now st t h
  have hget2 :=
    @getById_after_update id
      { registrationStatus := some RegistrationStatus.approved,
        approvedAt := some now, actionedBy := some actor } now st t h
  have happ2 :=
    @updateTeamRegistration_ok id
      { registrationStatus := some RegistrationStatus.approved,
        approvedAt := some now2, actionedBy := some actor } now2 _ _ hget2
  have happrove1 : DatabaseService.ApproveTeamRegistration id actor now st =
      .ok (DatabaseService.applySet
        { registrationStatus := some RegistrationStatus.approved,
          approvedAt := some now, actionedBy := some actor } now t,
        stAfterUpdate id
          { registrationStatus := some RegistrationStatus.approved,
            approvedAt := some now, actionedBy := some actor } now st) := by
    unfold DatabaseService.ApproveTeamRegistration
    rw [h]
    exact happ
  have happrove2 : DatabaseService.ApproveTeamRegistration id actor now2
      (stAfterUpdate id
        { registrationStatus := some RegistrationStatus.approved,
          approvedAt := some now, actionedBy := some actor } now st) =
      .ok (DatabaseService.applySet
        { registrationStatus := some RegistrationStatus.approved,
          approvedAt := some now2, actionedBy := some actor } now2
        (DatabaseService.applySet
          { registrationStatus := some RegistrationStatus.approved,
            approvedAt := some now, actionedBy := some actor } now t),
        stAfterUpdate id
          { registrationStatus := some RegistrationStatus.approved,
            approvedAt := some now2, actionedBy := some actor } now2
          (stAfterUpdate id
            { registrationStatus := some RegistrationStatus.approved,
              approvedAt := some now, actionedBy := some actor } now st)) := by
    unfold DatabaseService.ApproveTeamRegistration
    rw [hget2]
    exact happ2
  exact ⟨_, _, happrove1, rfl, rfl, rfl, _, _, happrove2, rfl⟩

/-- Witness for C6 on a concrete pending registration. -/
theorem c6_witness :
    ∃ t1 st1,
      DatabaseService.ApproveTeamRegistration hexA "admin" 7 stPending = .ok (t1, st1) ∧
      t1.registrationStatus = .approved ∧ t1.approvedAt = some 7 ∧
      t1.actionedBy = "admin" ∧
      ∃ t2 st2,
        DatabaseService.ApproveTeamRegistration hexA "admin" 9 st1 = .ok (t2, st2) ∧
        t2.registrationStatus = .approved :=
  c6_theorem hexA "admin" 7 9 stPending samplePendingTeam rfl rfl

/-! ## C8 -/

/-- C8: a reject action with an empty reason returns 400 and performs no
update; a reject with a non-empty reason persists the reason, sets status
rejected and a rejection timestamp. -/
theorem c8_theorem :
    (∀ (id : String) (req : Handlers.ApproveRejectRequest) (now : Nat) (st : DBState),
      req.action = "reject" → req.actionedBy ≠ "" → req.reason = "" →
      Handlers.ApproveOrRejectTeamRegistration id (some req) now st =
        (.badRequest "Rejection reason is required", st)) ∧
    (∀ (id : String) (req : Handlers.ApproveRejectRequest) (now : Nat) (st : DBState)
        (t : TeamRegistration),
      req.action = "reject" → req.actionedBy ≠ "" → req.reason ≠ "" →
      DatabaseService.GetTeamRegistrationByID id st = .ok t →
      ∃ t1 st1,
        Handlers.ApproveOrRejectTeamRegistration id (some req) now st = (.ok t1, st1) ∧
        t1.registrationStatus = .rejected ∧ t1.rejectionReason = req.reason ∧
        t1.rejectedAt = some now) := by
  constructor
  · intro id req now st ha hb hr
    obtain ⟨action, reason, actionedBy⟩ := req
    simp only at ha hb hr
    subst ha
    subst hr
    simp [Handlers.ApproveOrRejectTeamRegistration, Handlers.approveRejectBindOk, hb]
  · intro id req now st t ha hb hr hget
    obtain ⟨action, reason, actionedBy⟩ := req
    simp only at ha hb hr ⊢
    subst ha
    have happ :=
      @updateTeamRegistration_ok id
        { registrationStatus := some RegistrationStatus.rejected,
          rejectedAt := some now, rejectionReason := some reason,
          actionedBy := some actionedBy } now st t hget
    have hrej : DatabaseService.RejectTeamRegistration id reason actionedBy now st =
        .ok (DatabaseService.applySet
          { registrationStatus := some RegistrationStatus.rejected,
            rejectedAt := some now, rejectionReason := some reason,
            actionedBy := some actionedBy } now t,
          stAfterUpdate id
            { registrationStatus := some RegistrationStatus.rejected,
              rejectedAt := some now, rejectionReason := some reason,
              actionedBy := some actionedBy } now st) := by
      unfold DatabaseService.RejectTeamRegistration
      rw [hget]
      exact happ
    have hh : Handlers.ApproveOrRejectTeamRegistration id
        (some ⟨"reject", reason, actionedBy⟩) now st =
        (.ok (DatabaseService.applySet
          { registrationStatus := some RegistrationStatus.rejected,
            rejectedAt := some now, rejectionReason := some reason,
            actionedBy := some actionedBy } now t),
          stAfterUpdate id
            { registrationStatus := some RegistrationStatus.rejected,
              rejectedAt := some now, rejectionReason := some reason,
              actionedBy := some actionedBy } now st) := by
      simp [Handlers.ApproveOrRejectTeamRegistration, Handlers.approveRejectBindOk,
        hb, hr, hrej]
    exact ⟨_, _, hh, rfl, rfl, rfl⟩

/-- Witness for C8 on a concrete registration: the empty reason is
refused with 400 and the non-empty reason is persisted. -/
theorem c8_witness :
    Handlers.ApproveOrRejectTeamRegistration hexA
        (some ⟨"reject", "", "admin"⟩) 7 stPending =
      (.badRequest "Rejection reason is required", stPending) ∧
    ∃ t1 st1,
      Handlers.ApproveOrRejectTeamRegistration hexA
          (some ⟨"reject", "missing documents", "admin"⟩) 7 stPending = (.ok t1, st1) ∧
      t1.registrationStatus = .rejected ∧ t1.rejectionReason = "missing documents" ∧
      t1.rejectedAt = some 7 :=
  ⟨c8_theorem.1 hexA ⟨"reject", "", "admin"⟩ 7 stPending rfl (by decide) rfl,
   c8_theorem.2 hexA ⟨"reject", "missing documents", "admin"⟩ 7 stPending
     samplePendingTeam rfl (by decide) (by decide) rfl⟩

/-! ## C2 -/

/-- C2 (amended): no handler operation ever produces a pending status on a
registration that was not already pending (the only pending registration a
handler can add is the freshly created one), and the generic update
handler never writes the status field at all; the one-way property out of
approved and rejected does not hold, as shown by the counterexample. -/
theorem c2_theorem :
    (∀ (op : HandlerOp) (st : DBState) (t2 : TeamRegistration),
      t2 ∈ (applyHandlerOp op st).teams →
      t2.registrationStatus = RegistrationStatus.pending →
      (∃ t1 ∈ st.teams, t1.idHex = t2.idHex ∧
          t1.registrationStatus = RegistrationStatus.pending) ∨
        (∃ body i n, op = HandlerOp.createTeam body i n ∧ t2.idHex = i)) ∧
    (∀ r : Handlers.UpdateTeamRegistrationRequest,
      (Handlers.buildTeamUpdateDoc r).registrationStatus = none) := by
  constructor
  · intro op st t2 h hp
    cases op with
    | createTeam body i n =>
      simp only [applyHandlerOp, Handlers.CreateTeamRegistration] at h
      repeat' split at h
      all_goals
        first
          | exact Or.inl ⟨t2, h, rfl, hp⟩
          | (dsimp only at h
             rw [(createTeamRegistration_state2 _ i n st).1] at h
             rcases List.mem_append.mp h with h1 | h1
             · exact Or.inl ⟨t2, h1, rfl, hp⟩
             · rcases List.mem_singleton.mp h1 with rfl
               exact Or.inr ⟨_, _, _, rfl, (createTeamRegistration_state2 _ i n st).2⟩)
    | updateTeam id body n =>
      simp only [applyHandlerOp, Handlers.UpdateTeamRegistration] at h
      repeat' split at h
      all_goals
        first
          | exact Or.inl ⟨t2, h, rfl, hp⟩
          | (rename_i heq
             rw [updateTeamRegistration_ok_state heq] at h
             exact Or.inl (pending_from_stAfterUpdate h (by simp [Handlers.buildTeamUpdateDoc]) hp))
    | actionTeam id body n =>
      simp only [applyHandlerOp, Handlers.ApproveOrRejectTeamRegistration] at h
      repeat' split at h
      all_goals
        first
          | exact Or.inl ⟨t2, h, rfl, hp⟩
          | (rename_i heq
             rw [approveTeamRegistration_ok_state heq] at h
             exact Or.inl (pending_from_stAfterUpdate h (by simp) hp))
          | (rename_i heq
             rw [rejectTeamRegistration_ok_state heq] at h
             exact Or.inl (pending_from_stAfterUpdate h (by simp) hp))
    | allocateTeam id body role n =>
      simp only [applyHandlerOp, Handlers.AllocateTeamToJudge] at h
      repeat' split at h
      all_goals
        first
          | exact Or.inl ⟨t2, h, rfl, hp⟩
          | (rename_i heq
             rw [updateTeamRegistration_ok_state heq] at h
             exact Or.inl (pending_from_stAfterUpdate h (by simp) hp))
    | evaluateTeam id role u body n =>
      simp only [applyHandlerOp, Handlers.JudgeEvaluateTeam] at h
      repeat' split at h
      all_goals
        first
          | exact Or.inl ⟨t2, h, rfl, hp⟩
          | (rename_i heq
             rw [updateTeamRegistration_ok_state heq] at h
             exact Or.inl (pending_from_stAfterUpdate h (by split <;> simp) hp))
    | deleteTeam id =>
      simp only [applyHandlerOp, Handlers.DeleteTeamRegistration] at h
      repeat' split at h
      all_goals
        first
          | exact Or.inl ⟨t2, h, rfl, hp⟩
          | (rename_i heq
             rw [deleteTeamRegistration_ok_state heq] at h
             exact Or.inl ⟨t2, mem_removeFirst h, rfl, hp⟩)
  · intro r
    rfl

def sampleRejectedTeam : TeamRegistration :=
  { Handlers.newTeamFromRequest sampleCreateReq with
    idHex := hexB, registrationNumber := "PCCOEIGC001", teamId := "IGC001",
    registrationStatus := .rejected, rejectedAt := some 3,
    rejectionReason := "incomplete", submittedAt := 1, createdAt := 1,
    updatedAt := 3 }

def stRejected : DBState := { users := [], teams := [sampleRejectedTeam] }

/-- C2 counterexample: the approve action applied to an already rejected
registration succeeds with 200 and moves its status straight to approved,
so a handler operation does transition a rejected registration to another
status. -/
theorem c2_counterexample :
    sampleRejectedTeam.registrationStatus = RegistrationStatus.rejected ∧
    ((Handlers.ApproveOrRejectTeamRegistration hexB
        (some ⟨"approve", "", "admin2"⟩) 9 stRejected).2.teams.map
      (fun t => t.registrationStatus)) = [RegistrationStatus.approved] ∧
    (Handlers.ApproveOrRejectTeamRegistration hexB
        (some ⟨"approve", "", "admin2"⟩) 9 stRejected).1.status = 200 := by
  refine ⟨rfl, ?_, ?_⟩ <;> rfl

/-- Witness for C2 on a concrete allocate operation over a pending
registration. -/
theorem c2_witness :
    (∃ t1 ∈ stPending.teams,
        t1.idHex = (DatabaseService.applySet { allocatedJudgeId := some "judge9" }
          5 samplePendingTeam).idHex ∧
        t1.registrationStatus = RegistrationStatus.pending) ∨
      (∃ body i n,
        HandlerOp.allocateTeam hexA (some ⟨"judge9"⟩) "admin" 5 =
          HandlerOp.createTeam body i n ∧
        (DatabaseService.applySet { allocatedJudgeId := some "judge9" }
          5 samplePendingTeam).idHex = i) :=
  c2_theorem.1 (HandlerOp.allocateTeam hexA (some ⟨"judge9"⟩) "admin" 5) stPending
    (DatabaseService.applySet { allocatedJudgeId := some "judge9" } 5 samplePendingTeam)
    (by decide) rfl

/-! ## C1 -/

def stEmpty : DBState := { users := [], teams := [] }

/-- C1 (amended): the team-registration submission endpoint is not
public: SetupRoutes attaches the JWT middleware to the whole
team-registrations group, so every request whose Authorization header the
middleware rejects is answered 401 with the middleware message and never
reaches the create handler (the stored state is unchanged). -/
theorem c1_theorem :
    routeUsesJwtMiddleware Route.teamsCreate = true ∧
    (∀ (secret : String) (now : Nat) (auth : AuthHeader)
        (body : Option Handlers.CreateTeamRegistrationRequest)
        (newIdHex : String) (st : DBState) (msg : String),
      JWTAuthMiddleware secret now auth = .abort401 msg →
      serveTeamsCreate secret now auth body newIdHex st = (.unauthorized msg, st)) := by
  refine ⟨rfl, ?_⟩
  intro secret now auth body newIdHex st msg hmw
  unfold serveTeamsCreate
  rw [hmw]

/-- C1 counterexample: a concrete valid submission without any
Authorization header is rejected with 401 before the create handler runs
and creates nothing, although the claim says no token is required. -/
theorem c1_counterexample :
    (serveTeamsCreate "supersecretkey" 0 AuthHeader.noHeader
        (some sampleCreateReq) hexC stEmpty).1.status = 401 ∧
    (serveTeamsCreate "supersecretkey" 0 AuthHeader.noHeader
        (some sampleCreateReq) hexC stEmpty).2 = stEmpty :=
  ⟨rfl, rfl⟩

/-- Witness for C1 at a concrete rejected header. -/
theorem c1_witness :
    serveTeamsCreate "supersecretkey" 3 AuthHeader.noHeader
        (some sampleCreateReq) hexC stPending =
      (.unauthorized "Missing or invalid Authorization header", stPending) :=
  c1_theorem.2 "supersecretkey" 3 AuthHeader.noHeader (some sampleCreateReq)
    hexC stPending "Missing or invalid Authorization header" rfl

/-! ## C3 -/

/-- C3 (amended): with page=2 and limit=10 the returned teams are exactly
rows 11 through 20 of the matching registrations ordered by descending
submission time (the sort is a permutation of the filtered collection,
sorted descending), but the response total always carries the unfiltered
collection count — it equals the filtered count only when no filter is
supplied. -/
theorem c3_theorem (s tr inst : String) (st : DBState) :
    (Handlers.GetAllTeamRegistrations ⟨"2", "10", s, tr, inst⟩ st).teams =
      ((DatabaseService.sortBySubmittedAtDesc
        (st.teams.filter
          (Handlers.listFilterPred ⟨"2", "10", s, tr, inst⟩))).drop 10).take 10 ∧
    (Handlers.GetAllTeamRegistrations ⟨"2", "10", s, tr, inst⟩ st).total =
      st.teams.length ∧
    List.Perm
      (DatabaseService.sortBySubmittedAtDesc
        (st.teams.filter (Handlers.listFilterPred ⟨"2", "10", s, tr, inst⟩)))
      (st.teams.filter (Handlers.listFilterPred ⟨"2", "10", s, tr, inst⟩)) ∧
    (DatabaseService.sortBySubmittedAtDesc
        (st.teams.filter (Handlers.listFilterPred ⟨"2", "10", s, tr, inst⟩))).Pairwise
      (fun a b => b.submittedAt ≤ a.submittedAt) :=
  ⟨rfl, rfl, sortBySubmittedAtDesc_perm _, sortBySubmittedAtDesc_pairwise _⟩

def sampleApprovedTeam : TeamRegistration :=
  { Handlers.newTeamFromRequest sampleCreateReq with
    idHex := hexC, teamName := "Team Beta", registrationNumber := "PCCOEIGC002",
    teamId := "IGC002", registrationStatus := .approved, approvedAt := some 4,
    submittedAt := 2, createdAt := 2, updatedAt := 4 }

def stTwo : DBState := { users := [], teams := [samplePendingTeam, sampleApprovedTeam] }

/-- C3 counterexample: on a collection with one pending and one approved
registration, a list request filtered by status pending reports total 2,
the unfiltered count, while only one registration matches the filter. -/
theorem c3_counterexample :
    (Handlers.GetAllTeamRegistrations ⟨"2", "10", "pending", "", ""⟩ stTwo).total = 2 ∧
    (stTwo.teams.filter
      (Handlers.listFilterPred ⟨"2", "10", "pending", "", ""⟩)).length = 1 :=
  ⟨rfl, rfl⟩

/-! ## C4 -/

/-- C4 (amended): a submission with otherwise valid fields (passing the
gin binding validation) but 0 or 5 non-empty members is rejected with
400; a submission failing the binding validation is also rejected with
400 before the member count is examined; with valid fields, 1 to 4
non-empty members and a fresh team name it is created with registration
number PCCOEIGC%03d and team id IGC%03d derived from the collection count
plus one; these are unique across the existing set whenever every
existing registration carries numbers generated from counts 1..count (as
in a deletion-free history) — after a deletion the generated tokens can
collide with a stored registration (see the counterexample). -/
theorem c4_theorem :
    (∀ (req : Handlers.CreateTeamRegistrationRequest) (i : String) (now : Nat)
        (st : DBState),
      Handlers.createTeamBindOk req = true →
      (Handlers.validMembersCount req.members = 0 ∨
        Handlers.validMembersCount req.members = 5) →
      Handlers.CreateTeamRegistration (some req) i now st =
        (.badRequest "Team must have between 1-4 members (excluding leader)", st)) ∧
    (∀ (req : Handlers.CreateTeamRegistrationRequest) (i : String) (now : Nat)
        (st : DBState),
      Handlers.createTeamBindOk req = false →
      Handlers.CreateTeamRegistration (some req) i now st =
        (.badRequest "Invalid request data", st)) ∧
    (∀ (req : Handlers.CreateTeamRegistrationRequest) (i : String) (now : Nat)
        (st : DBState) (e : String),
      Handlers.createTeamBindOk req = true →
      1 ≤ Handlers.validMembersCount req.members →
      Handlers.validMembersCount req.members ≤ 4 →
      DatabaseService.GetTeamRegistrationByTeamName req.teamName st = .error e →
      ∃ c st2,
        Handlers.CreateTeamRegistration (some req) i now st = (.created c, st2) ∧
        c.registrationNumber = "PCCOEIGC" ++ format03d (st.teams.length + 1) ∧
        c.teamId = "IGC" ++ format03d (st.teams.length + 1) ∧
        ((∀ t ∈ st.teams, ∃ k, 1 ≤ k ∧ k ≤ st.teams.length ∧
            t.registrationNumber = "PCCOEIGC" ++ format03d k ∧
            t.teamId = "IGC" ++ format03d k) →
          ∀ t ∈ st.teams, t.registrationNumber ≠ c.registrationNumber ∧
            t.teamId ≠ c.teamId)) := by
  refine ⟨?_, ?_, ?_⟩
  · intro req i now st hbind hcount
    rcases hcount with hc | hc <;>
      simp [Handlers.CreateTeamRegistration, hbind, hc]
  · intro req i now st hbind
    simp [Handlers.CreateTeamRegistration, hbind]
  · intro req i now st e hbind h1 h4 hname
    have hcond : (decide (Handlers.validMembersCount req.members < 1) ||
        decide (Handlers.validMembersCount req.members > 4)) = false := by
      simp
      omega
    have hh : Handlers.CreateTeamRegistration (some req) i now st =
        (.created (DatabaseService.CreateTeamRegistration
            (Handlers.newTeamFromRequest req) i now st).1,
          (DatabaseService.CreateTeamRegistration
            (Handlers.newTeamFromRequest req) i now st).2) := by
      simp only [Handlers.CreateTeamRegistration, hname, hcond, hbind]
      simp
    refine ⟨(DatabaseService.CreateTeamRegistration
        (Handlers.newTeamFromRequest req) i now st).1,
      (DatabaseService.CreateTeamRegistration
        (Handlers.newTeamFromRequest req) i now st).2, hh, rfl, rfl, ?_⟩
    intro hall t ht
    obtain ⟨k, hk1, hk2, hrn, htid⟩ := hall t ht
    constructor
    · intro hbad
      rw [hrn] at hbad
      have heqf : format03d k = format03d (st.teams.length + 1) :=
        stringAppendCancelLeft "PCCOEIGC" _ _ (by rw [hbad]; rfl)
      have hk := format03d_inj heqf
      omega
    · intro hbad
      rw [htid] at hbad
      have heqf : format03d k = format03d (st.teams.length + 1) :=
        stringAppendCancelLeft "IGC" _ _ (by rw [hbad]; rfl)
      have hk := format03d_inj heqf
      omega

def sampleLeftoverTeam : TeamRegistration :=
  { Handlers.newTeamFromRequest sampleCreateReq with
    idHex := hexB, teamName := "Team Beta", registrationNumber := "PCCOEIGC002",
    teamId := "IGC002", submittedAt := 2, createdAt := 2, updatedAt := 2 }

def stAfterDelete : DBState := { users := [], teams := [sampleLeftoverTeam] }

/-- C4 counterexample: after the first of two registrations is deleted
the surviving one is numbered PCCOEIGC002 and the collection count is 1,
so the next valid submission is assigned PCCOEIGC002 and IGC002 again —
the new tokens are not unique across the existing registration set. -/
theorem c4_counterexample :
    (Handlers.CreateTeamRegistration (some sampleCreateReq) hexA 5 stAfterDelete).1.status
      = 201 ∧
    ((Handlers.CreateTeamRegistration (some sampleCreateReq) hexA 5 stAfterDelete).2.teams.map
      (fun t => t.registrationNumber)) = ["PCCOEIGC002", "PCCOEIGC002"] ∧
    ((Handlers.CreateTeamRegistration (some sampleCreateReq) hexA 5 stAfterDelete).2.teams.map
      (fun t => t.teamId)) = ["IGC002", "IGC002"] :=
  ⟨rfl, rfl, rfl⟩

/-- Witness for C4: the 0-member rejection, the binding rejection of a
malformed leader email, and a successful creation in the empty
collection, numbered PCCOEIGC001 and IGC001. -/
theorem c4_witness :
    (Handlers.CreateTeamRegistration
        (some { sampleCreateReq with members := [] }) hexA 5 stEmpty) =
      (.badRequest "Team must have between 1-4 members (excluding leader)", stEmpty) ∧
    (Handlers.CreateTeamRegistration
        (some { sampleCreateReq with leaderEmail := "nonsense" }) hexA 5 stEmpty) =
      (.badRequest "Invalid request data", stEmpty) ∧
    ∃ c st2,
      Handlers.CreateTeamRegistration (some sampleCreateReq) hexA 5 stEmpty =
        (.created c, st2) ∧
      c.registrationNumber = "PCCOEIGC" ++ format03d (stEmpty.teams.length + 1) ∧
      c.teamId = "IGC" ++ format03d (stEmpty.teams.length + 1) ∧
      ((∀ t ∈ stEmpty.teams, ∃ k, 1 ≤ k ∧ k ≤ stEmpty.teams.length ∧
          t.registrationNumber = "PCCOEIGC" ++ format03d k ∧
          t.teamId = "IGC" ++ format03d k) →
        ∀ t ∈ stEmpty.teams, t.registrationNumber ≠ c.registrationNumber ∧
          t.teamId ≠ c.teamId) :=
  ⟨c4_theorem.1 { sampleCreateReq with members := [] } hexA 5 stEmpty
     (by decide) (Or.inl rfl),
   c4_theorem.2.1 { sampleCreateReq with leaderEmail := "nonsense" } hexA 5 stEmpty
     (by decide),
   c4_theorem.2.2 sampleCreateReq hexA 5 stEmpty "team registration not found"
     (by decide) (by decide) (by decide) rfl⟩

/-! ## C5 -/

/-- C5 (amended): for a stored user found by username, logging in with
the exactly matching password returns 200 with an HS256 token signed with
the process secret whose role claim equals the stored role; any non-empty
non-matching password returns 401, a result that carries no token; the
empty password (also non-matching, since stored passwords are at least 6
characters) is instead rejected 400 by request binding — see the
counterexample. -/
theorem c5_theorem :
    (∀ (secret : String) (now : Nat) (st : DBState)
        (req : Handlers.LoginRequest) (u : User),
      DatabaseService.GetUserByUsername req.username st = .ok u →
      req.password = u.password →
      req.username ≠ "" → req.password ≠ "" →
      Handlers.Login secret now (some req) st =
        .ok (Handlers.userResponseObj u) (GenerateJWT secret now u) ∧
      (GenerateJWT secret now u).claims.role = u.role ∧
      (GenerateJWT secret now u).secret = secret ∧
      (GenerateJWT secret now u).isHmac = true) ∧
    (∀ (secret : String) (now : Nat) (st : DBState)
        (req : Handlers.LoginRequest) (u : User),
      DatabaseService.GetUserByUsername req.username st = .ok u →
      req.password ≠ u.password →
      req.username ≠ "" → req.password ≠ "" →
      Handlers.Login secret now (some req) st = .unauthorized) := by
  constructor
  · intro secret now st req u hget hpw hu hp
    obtain ⟨username, password⟩ := req
    simp only at hget hpw hu hp
    subst hpw
    refine ⟨?_, rfl, rfl, rfl⟩
    simp [Handlers.Login, Handlers.loginBindOk, hu, hp, hget]
  · intro secret now st req u hget hpw hu hp
    obtain ⟨username, password⟩ := req
    simp only at hget hpw hu hp
    simp [Handlers.Login, Handlers.loginBindOk, hu, hp, hget, Ne.symm hpw]

def sampleAdmin : User :=
  { idHex := hexC, username := "admin", password := "igc#407@", role := "admin",
    createdAt := 0, updatedAt := 0 }

def stUsers : DBState := { users := [sampleAdmin], teams := [] }

/-- C5 counterexample: the empty password does not match the stored one,
yet the login attempt is answered 400 by request binding rather than the
401 the claim requires for every non-matching password. -/
theorem c5_counterexample :
    "" ≠ sampleAdmin.password ∧
    Handlers.Login "supersecretkey" 0 (some ⟨"admin", ""⟩) stUsers =
      .badRequest ∧
    (Handlers.Login "supersecretkey" 0 (some ⟨"admin", ""⟩) stUsers).status = 400 :=
  ⟨by decide, rfl, rfl⟩

/-- Witness for C5 on the stored admin user. -/
theorem c5_witness :
    (Handlers.Login "supersecretkey" 11 (some ⟨"admin", "igc#407@"⟩) stUsers =
        .ok (Handlers.userResponseObj sampleAdmin)
          (GenerateJWT "supersecretkey" 11 sampleAdmin) ∧
      (GenerateJWT "supersecretkey" 11 sampleAdmin).claims.role = sampleAdmin.role ∧
      (GenerateJWT "supersecretkey" 11 sampleAdmin).secret = "supersecretkey" ∧
      (GenerateJWT "supersecretkey" 11 sampleAdmin).isHmac = true) ∧
    Handlers.Login "supersecretkey" 11 (some ⟨"admin", "wrongpass"⟩) stUsers =
      .unauthorized :=
  ⟨c5_theorem.1 "supersecretkey" 11 stUsers ⟨"admin", "igc#407@"⟩ sampleAdmin
     rfl rfl (by decide) (by decide),
   c5_theorem.2 "supersecretkey" 11 stUsers ⟨"admin", "wrongpass"⟩ sampleAdmin
     rfl (by decide) (by decide) (by decide)⟩

/-! ## C7 -/

/-- C7 (amended): a registration created through the create endpoint can
be fetched back both by its opaque id and by its registration number
(fresh across the prior collection), and the two fetches return the same
stored entity; but there is no fetch route keyed on the human team id,
and feeding the team id to either fetch endpoint fails — see the
counterexample. -/
theorem c7_theorem (req : Handlers.CreateTeamRegistrationRequest) (i : String)
    (now : Nat) (st : DBState) (c : TeamRegistration) (st2 : DBState)
    (hcreate : Handlers.CreateTeamRegistration (some req) i now st = (.created c, st2))
    (hvalid : isValidObjectIdHex i = true)
    (hidfresh : ∀ t ∈ st.teams, (t.idHex == i) = false)
    (hregfresh : ∀ t ∈ st.teams,
      (t.registrationNumber == c.registrationNumber) = false) :
    Handlers.GetTeamRegistration c.idHex st2 = .ok c ∧
    Handlers.GetTeamRegistrationByRegNumber c.registrationNumber st2 = .ok c := by
  have hstate : st2.teams = st.teams ++ [c] ∧ c.idHex = i := by
    simp only [Handlers.CreateTeamRegistration] at hcreate
    repeat' split at hcreate
    all_goals
      first
        | (exfalso; simp at hcreate; done)
        | (simp only [Prod.mk.injEq, Handlers.CreateTeamResult.created.injEq]
            at hcreate
           obtain ⟨hc, hs⟩ := hcreate
           rw [← hc, ← hs]
           exact createTeamRegistration_state2 _ i now st)
  obtain ⟨hteams, hid⟩ := hstate
  constructor
  · have hget : DatabaseService.GetTeamRegistrationByID c.idHex st2 = .ok c := by
      apply getTeamById_ok_iff.mpr
      refine ⟨by rw [hid]; exact hvalid, ?_⟩
      rw [hteams, find?_append_of_none]
      · simp
      · intro a ha
        rw [hid]
        exact hidfresh a ha
    unfold Handlers.GetTeamRegistration
    rw [hget]
  · unfold Handlers.GetTeamRegistrationByRegNumber
      DatabaseService.GetTeamRegistrationByRegistrationNumber
    rw [hteams, find?_append_of_none _ hregfresh]
    simp

/-- C7 counterexample: the registration created in the empty collection
carries the human team id IGC001, but fetching with IGC001 fails on both
fetch routes: the by-id route answers 400 (not a valid ObjectID hex) and
the registration-number route answers 404 — no endpoint fetches by the
human team id. -/
theorem c7_counterexample :
    (Handlers.CreateTeamRegistration (some sampleCreateReq) hexA 5 stEmpty).1.status
      = 201 ∧
    ((Handlers.CreateTeamRegistration
      (some sampleCreateReq) hexA 5 stEmpty).2.teams.map (fun t => t.teamId)) =
      ["IGC001"] ∧
    Handlers.GetTeamRegistration "IGC001"
      (Handlers.CreateTeamRegistration (some sampleCreateReq) hexA 5 stEmpty).2 =
      .badRequest ∧
    Handlers.GetTeamRegistrationByRegNumber "IGC001"
      (Handlers.CreateTeamRegistration (some sampleCreateReq) hexA 5 stEmpty).2 =
      .notFound ∧
    Handlers.GetTeamResult.badRequest.status = 400 ∧
    Handlers.GetTeamResult.notFound.status = 404 :=
  ⟨rfl, rfl, rfl, rfl, rfl, rfl⟩

/-- Witness for C7: the round trip on a concrete creation in the empty
collection. -/
theorem c7_witness :
    Handlers.GetTeamRegistration
        (DatabaseService.CreateTeamRegistration
          (Handlers.newTeamFromRequest sampleCreateReq) hexA 5 stEmpty).1.idHex
        (DatabaseService.CreateTeamRegistration
          (Handlers.newTeamFromRequest sampleCreateReq) hexA 5 stEmpty).2 =
      .ok (DatabaseService.CreateTeamRegistration
        (Handlers.newTeamFromRequest sampleCreateReq) hexA 5 stEmpty).1 ∧
    Handlers.GetTeamRegistrationByRegNumber
        (DatabaseService.CreateTeamRegistration
          (Handlers.newTeamFromRequest sampleCreateReq) hexA 5 stEmpty).1.registrationNumber
        (DatabaseService.CreateTeamRegistration
          (Handlers.newTeamFromRequest sampleCreateReq) hexA 5 stEmpty).2 =
      .ok (DatabaseService.CreateTeamRegistration
        (Handlers.newTeamFromRequest sampleCreateReq) hexA 5 stEmpty).1 :=
  c7_theorem sampleCreateReq hexA 5 stEmpty _ _ rfl rfl (by decide) (by decide)

/-! ## C9 -/

/-- C9 (amended): evaluate checks the role first, so any request whose
role claim is not exactly judge is answered 403 with no state change,
whatever its body; allocate binds the body first, so a request with a
well-formed body (non-empty judgeId) and a role other than admin is
answered 403 with no state change, while a request with a malformed body
is answered 400 even when the role is not admin — see the
counterexample. -/
theorem c9_theorem :
    (∀ (id judgeId role : String) (now : Nat) (st : DBState),
      judgeId ≠ "" → role ≠ "admin" →
      Handlers.AllocateTeamToJudge id (some ⟨judgeId⟩) role now st =
        (.forbidden, st)) ∧
    (∀ (id role userId : String) (body : Option Handlers.EvaluateRequest)
        (now : Nat) (st : DBState),
      role ≠ "judge" →
      Handlers.JudgeEvaluateTeam id role userId body now st = (.forbidden, st)) := by
  constructor
  · intro id judgeId role now st hj hr
    simp [Handlers.AllocateTeamToJudge, hj, hr]
  · intro id role userId body now st hr
    simp [Handlers.JudgeEvaluateTeam, hr]

/-- C9 counterexample: an authenticated request with role judge (not
admin) but an empty judgeId body is answered 400 by the allocate action,
not the 403 the claim requires for every non-admin request. -/
theorem c9_counterexample :
    Handlers.AllocateTeamToJudge hexA (some ⟨""⟩) "judge" 4 stPending =
      (.badRequest, stPending) ∧
    Handlers.AllocateResult.badRequest.status = 400 ∧
    Handlers.AllocateResult.forbidden.status = 403 :=
  ⟨rfl, rfl, rfl⟩

/-- Witness for C9: a judge cannot allocate and an admin cannot
evaluate. -/
theorem c9_witness :
    Handlers.AllocateTeamToJudge hexA (some ⟨"judge1"⟩) "judge" 4 stPending =
      (.forbidden, stPending) ∧
    Handlers.JudgeEvaluateTeam hexA "admin" "u1" (some ⟨"approve", ""⟩) 4 stPending =
      (.forbidden, stPending) :=
  ⟨c9_theorem.1 hexA "judge1" "judge" 4 stPending (by decide) (by decide),
   c9_theorem.2 hexA "admin" "u1" (some ⟨"approve", ""⟩) 4 stPending (by decide)⟩

/-! ## C10 -/

/-- C10: the success responses of Login, GetUser and GetAllUsers expose
exactly the id and username keys (never the stored password), while a
successful judge-flavored CreateUser answers 201 with a user object that
carries the generated judge id and the plaintext password stored for the
new user. -/
theorem c10_theorem :
    (∀ (secret : String) (now : Nat) (body : Option Handlers.LoginRequest)
        (st : DBState) (user : List (String × String)) (tok : Token),
      Handlers.Login secret now body st = .ok user tok →
      user.map Prod.fst = ["id", "username"]) ∧
    (∀ (id : String) (st : DBState) (user : List (String × String)),
      Handlers.GetUser id st = .ok user →
      user.map Prod.fst = ["id", "username"]) ∧
    (∀ (p l : String) (st : DBState) (user : List (String × String)),
      user ∈ (Handlers.GetAllUsers p l st).users →
      user.map Prod.fst = ["id", "username"]) ∧
    (∀ (r : Handlers.UnifiedCreateUserRequest) (rid i : String) (now : Nat)
        (st : DBState) (resp : List (String × String)) (st2 : DBState),
      Handlers.CreateUser (some r) rid i now st = (.created resp, st2) →
      r.role = "judge" →
      ∃ pw u, ("judgeId", "JUDGE-" ++ rid) ∈ resp ∧ ("password", pw) ∈ resp ∧
        st2.users = st.users ++ [u] ∧ u.password = pw) := by
  refine ⟨?_, ?_, ?_, ?_⟩
  · intro secret now body st user tok h
    unfold Handlers.Login at h
    repeat' split at h
    all_goals
      first
        | (exfalso; simp at h; done)
        | (simp only [Handlers.LoginResult.ok.injEq] at h
           rw [← h.1]
           rfl)
  · intro id st user h
    unfold Handlers.GetUser at h
    repeat' split at h
    all_goals
      first
        | (exfalso; simp at h; done)
        | (simp only [Handlers.GetUserResult.ok.injEq] at h
           rw [← h]
           rfl)
  · intro p l st user h
    simp only [Handlers.GetAllUsers] at h
    rcases List.mem_map.mp h with ⟨u, hu, rfl⟩
    rfl
  · intro r rid i now st resp st2 h hrole
    simp only [Handlers.CreateUser, hrole, beq_self_eq_true, if_true,
      Bool.true_and, Bool.and_true] at h
    repeat' split at h
    all_goals try (exfalso; simp at h; done)
    all_goals
      simp only [Prod.mk.injEq, Handlers.CreateUserResult.created.injEq] at h
    all_goals
      obtain ⟨hresp, hst⟩ := h
    all_goals
      subst hresp
    all_goals
      subst hst
    all_goals
      first
        | exact ⟨"JUDGE-" ++ rid, _, by simp, by simp, rfl, rfl⟩
        | exact ⟨r.password, _, by simp, by simp, rfl, rfl⟩

/-- The user record its judge creation stores in the witness below. -/
def judgeUserW : User :=
  { idHex := hexB, username := "judge1@example.com", password := "secret123",
    role := "judge", createdAt := 0, updatedAt := 0 }

/-- The 201 response object of that judge creation. -/
def judgeRespW : List (String × String) :=
  [("id", hexB), ("username", "judge1@example.com"), ("role", "judge"),
   ("judgeId", "JUDGE-AB12CD"), ("name", "Judge One"),
   ("organization", "PCCOE"), ("password", "secret123")]

/-- Witness for C10: a concrete judge creation leaks the generated judge
id and the plaintext password stored for the user, and a concrete login
response carries only the id and username keys. -/
theorem c10_witness :
    (∃ pw u,
      ("judgeId", "JUDGE-" ++ "AB12CD") ∈ judgeRespW ∧
      ("password", pw) ∈ judgeRespW ∧
      ({ users := [judgeUserW], teams := [] } : DBState).users =
        stEmpty.users ++ [u] ∧ u.password = pw) ∧
    (Handlers.userResponseObj sampleAdmin).map Prod.fst = ["id", "username"] :=
  ⟨c10_theorem.2.2.2
      ⟨"judge1@example.com", "secret123", "judge", "Judge One", "PCCOE"⟩
      "AB12CD" hexB 0 stEmpty judgeRespW { users := [judgeUserW], teams := [] }
      rfl rfl,
   c10_theorem.1 "supersecretkey" 0 (some ⟨"admin", "igc#407@"⟩) stUsers
     (Handlers.userResponseObj sampleAdmin)
     (GenerateJWT "supersecretkey" 0 sampleAdmin) rfl⟩

end IGC
